import Mathlib

/-!
# The JProf native agent (`src/net/sf/cpsolver/ifs/util/jprof.cc`)

A shallow embedding of the profiler agent: the static pointer `jvmpi_interface`,
the load entry point `JVM_OnLoad` and the native method
`Java_net_sf_ifs_cpsolver_util_JProf_getCurrentThreadCpuTime`.

The host virtual machine is external to the agent.  It is embedded as a record of
two operations over a host state of an arbitrary type `H`, so that every theorem
quantifies over every behaviour the host may show.  The agent state is the static
pointer; the record of host operations invoked so far is kept next to it so that
"how often was the host called" can be stated.
-/

set_option linter.unusedVariables false

namespace JProf

/-- A machine address.  The null pointer is `0`. -/
abbrev Ptr := Nat

/-- Modelled from the spec: the header `jni.h` (pulled in by `jvmpi.h`) is not in the
source tree.  The spec says only that the load entry point has one status meaning
"loaded successfully" and another meaning "initialization failed"; the value is the
one the JDK header gives `JNI_OK`. -/
def JNI_OK : Int := 0

/-- Modelled from the spec: the header `jni.h` is not in the source tree; this is the
status meaning "initialization failed", with the value the JDK header gives
`JNI_ERR`. -/
def JNI_ERR : Int := -1

/-- Modelled from the spec: the header `jvmpi.h` is not in the source tree; this is the
"single fixed version identifier" of the spec, with the value the JDK header gives
`JVMPI_VERSION_1` (`0x10000001`). -/
def JVMPI_VERSION_1 : Int := 0x10000001

/-- What one call `jvm->GetEnv(penv, version)` does, as seen by the agent: the `jint`
it returns, and the pointer it stored through `penv` (`none` when the host left the
slot alone). -/
structure GetEnvResult where
  status : Int
  stored : Option Ptr
deriving DecidableEq

/-- A host operation invoked by the agent. -/
inductive HostCall where
  | GetEnv (version : Int)
  | GetCurrentThreadCpuTime (iface : Ptr)
deriving DecidableEq

/-- The host runtime, over a host state `H` (clock, current thread, whatever the host
keeps).  `GetEnv h slot version` is `jvm->GetEnv(&slot, version)` in host state `h`,
where `slot` is the content of the output slot at the time of the call;
`GetCurrentThreadCpuTime h p` is `p->GetCurrentThreadCpuTime()` in host state `h`,
a `jlong`. -/
structure Host (H : Type) where
  GetEnv : H → Ptr → Int → GetEnvResult × H
  GetCurrentThreadCpuTime : H → Ptr → Int × H

/-- The process: the static `jvmpi_interface`, the state of the host, and the host
operations the agent has invoked so far (oldest first). -/
structure World (H : Type) where
  jvmpi_interface : Ptr
  host : H
  calls : List HostCall

/-- The process at start: `static JVMPI_Interface *jvmpi_interface;` has static
storage and no initialiser, so it is null; no host operation was invoked yet. -/
def World.init {H : Type} (h : H) : World H :=
  { jvmpi_interface := 0, host := h, calls := [] }

/-- The content of the output slot after a `GetEnv` call that was given `&slot`. -/
def slotAfter (slot : Ptr) (r : GetEnvResult) : Ptr :=
  match r.stored with
  | some p => p
  | none => slot

/-- The entry point `JVM_OnLoad(jvm, options, reserved)`.  The host is handed the
address of `jvmpi_interface` itself, so whatever it stores lands in the static
pointer; the status is `JNI_ERR` when `GetEnv` returned a negative `jint` and `JNI_OK`
otherwise.  `options` and `reserved` are not read. -/
def JVM_OnLoad {H : Type} (jvm : Host H) (options : Option String) (reserved : Ptr)
    (w : World H) : Int × World H :=
  let r := jvm.GetEnv w.host w.jvmpi_interface JVMPI_VERSION_1
  let w1 : World H :=
    { jvmpi_interface := slotAfter w.jvmpi_interface r.1
      host := r.2
      calls := w.calls ++ [HostCall.GetEnv JVMPI_VERSION_1] }
  if r.1.status < 0 then (JNI_ERR, w1) else (JNI_OK, w1)

/-- The native method `Java_net_sf_ifs_cpsolver_util_JProf_getCurrentThreadCpuTime(env, cls)`:
`jvmpi_interface == 0 ? 0 : jvmpi_interface->GetCurrentThreadCpuTime()`.  The two
arguments are unnamed in the source and not read. -/
def Java_net_sf_ifs_cpsolver_util_JProf_getCurrentThreadCpuTime {H : Type} (jvm : Host H)
    (env : Ptr) (cls : Ptr) (w : World H) : Int × World H :=
  if w.jvmpi_interface = 0 then (0, w)
  else
    let r := jvm.GetCurrentThreadCpuTime w.host w.jvmpi_interface
    (r.1, { jvmpi_interface := w.jvmpi_interface
            host := r.2
            calls := w.calls ++ [HostCall.GetCurrentThreadCpuTime w.jvmpi_interface] })

/-- One invocation of an entry point of the agent, with its arguments. -/
inductive Invocation where
  | onLoad (options : Option String) (reserved : Ptr)
  | query (env : Ptr) (cls : Ptr)
deriving DecidableEq

/-- Whether the invocation is a query. -/
def Invocation.isQuery : Invocation → Bool
  | Invocation.onLoad _ _ => false
  | Invocation.query _ _ => true

/-- Perform one invocation: the value returned to the host and the process afterwards. -/
def invoke {H : Type} (jvm : Host H) (i : Invocation) (w : World H) : Int × World H :=
  match i with
  | Invocation.onLoad options reserved => JVM_OnLoad jvm options reserved w
  | Invocation.query env cls =>
      Java_net_sf_ifs_cpsolver_util_JProf_getCurrentThreadCpuTime jvm env cls w

/-- Perform the invocations one after the other: the values returned, in order, and
the process at the end. -/
def run {H : Type} (jvm : Host H) : List Invocation → World H → List Int × World H
  | [], w => ([], w)
  | i :: rest, w =>
      let r := invoke jvm i w
      let rs := run jvm rest r.2
      (r.1 :: rs.1, rs.2)

/-- Perform one query per caller `(env, cls)`, one after the other. -/
def runQueries {H : Type} (jvm : Host H) : List (Ptr × Ptr) → World H → List Int × World H
  | [], w => ([], w)
  | q :: rest, w =>
      let r := Java_net_sf_ifs_cpsolver_util_JProf_getCurrentThreadCpuTime jvm q.1 q.2 w
      let rs := runQueries jvm rest r.2
      (r.1 :: rs.1, rs.2)

/-- What the host itself reports when its accessor is invoked `n` times in a row through
the interface pointer `p`, starting in host state `h`: the values and the host state
at the end.  This does not involve the agent. -/
def hostReports {H : Type} (jvm : Host H) (p : Ptr) : Nat → H → List Int × H
  | 0, h => ([], h)
  | n + 1, h =>
      let r := jvm.GetCurrentThreadCpuTime h p
      let rs := hostReports jvm p n r.2
      (r.1 :: rs.1, rs.2)

/-! ## Concrete hosts used to evaluate the agent -/

/-- A host that grants the interface: `GetEnv` stores the table address `4096` and
returns `0`; its state counts the accessor calls, and the accessor reports the value
`1000 + 7 * (calls so far)`. -/
def grantingHost : Host Nat :=
  { GetEnv := fun h _ _ => (⟨0, some 4096⟩, h)
    GetCurrentThreadCpuTime := fun h _ => (1000 + 7 * (h : Int), h + 1) }

/-- A host that refuses the interface the way a JVM does: `GetEnv` stores null and
returns `-3` (the version error of `jni.h`). -/
def refusingHost : Host Nat :=
  { GetEnv := fun h _ _ => (⟨-3, some 0⟩, h)
    GetCurrentThreadCpuTime := fun h _ => (1000 + 7 * (h : Int), h + 1) }

/-- A host that refuses the interface and leaves the output slot alone. -/
def silentRefusingHost : Host Nat :=
  { GetEnv := fun h _ _ => (⟨-1, none⟩, h)
    GetCurrentThreadCpuTime := fun h _ => (1000 + 7 * (h : Int), h + 1) }

/-- A host whose `GetEnv` stores the non-null address `4096` and yet returns the
error status `-1`. -/
def storingRefusingHost : Host Nat :=
  { GetEnv := fun h _ _ => (⟨-1, some 4096⟩, h)
    GetCurrentThreadCpuTime := fun h _ => (1000 + 7 * (h : Int), h + 1) }

/-- A host whose `GetEnv` returns the success status `0` and stores null. -/
def nullGrantingHost : Host Nat :=
  { GetEnv := fun h _ _ => (⟨0, some 0⟩, h)
    GetCurrentThreadCpuTime := fun h _ => (1000 + 7 * (h : Int), h + 1) }

/-- A host that answers every request differently; its state counts the `GetEnv` calls.
The first `GetEnv` stores `4096` and returns `0`, the second stores `4104` and returns
`0`, every later one stores null and returns `-1`. -/
def fickleHost : Host Nat :=
  { GetEnv := fun h _ _ =>
      (if h = 0 then ⟨0, some 4096⟩ else if h = 1 then ⟨0, some 4104⟩ else ⟨-1, some 0⟩, h + 1)
    GetCurrentThreadCpuTime := fun h _ => (1000 + 7 * (h : Int), h) }

/-- A host whose accessor reports the negative value `-5` and then `0`. -/
def oddClockHost : Host Nat :=
  { GetEnv := fun h _ _ => (⟨0, some 4096⟩, h)
    GetCurrentThreadCpuTime := fun h _ => (if h = 0 then -5 else 0, h + 1) }

/-- The host `jvm`, except that its `GetEnv` stores `q` through the output pointer
(or nothing, for `none`); the status and everything else are those of `jvm`. -/
def Host.storing {H : Type} (jvm : Host H) (q : Option Ptr) : Host H :=
  { GetEnv := fun h slot version =>
      (⟨(jvm.GetEnv h slot version).1.status, q⟩, (jvm.GetEnv h slot version).2)
    GetCurrentThreadCpuTime := jvm.GetCurrentThreadCpuTime }

/-! ## Helper lemmas -/

theorem JVM_OnLoad_fst {H : Type} (jvm : Host H) (options : Option String) (reserved : Ptr)
    (w : World H) :
    (JVM_OnLoad jvm options reserved w).1
      = if (jvm.GetEnv w.host w.jvmpi_interface JVMPI_VERSION_1).1.status < 0
        then JNI_ERR else JNI_OK := by
  unfold JVM_OnLoad
  dsimp only
  split <;> rfl

theorem JVM_OnLoad_snd {H : Type} (jvm : Host H) (options : Option String) (reserved : Ptr)
    (w : World H) :
    (JVM_OnLoad jvm options reserved w).2
      = { jvmpi_interface :=
            slotAfter w.jvmpi_interface (jvm.GetEnv w.host w.jvmpi_interface JVMPI_VERSION_1).1
          host := (jvm.GetEnv w.host w.jvmpi_interface JVMPI_VERSION_1).2
          calls := w.calls ++ [HostCall.GetEnv JVMPI_VERSION_1] } := by
  unfold JVM_OnLoad
  dsimp only
  split <;> rfl

theorem query_of_null {H : Type} (jvm : Host H) (env cls : Ptr) (w : World H)
    (h0 : w.jvmpi_interface = 0) :
    Java_net_sf_ifs_cpsolver_util_JProf_getCurrentThreadCpuTime jvm env cls w = (0, w) := by
  unfold Java_net_sf_ifs_cpsolver_util_JProf_getCurrentThreadCpuTime
  rw [if_pos h0]

theorem query_of_nonnull {H : Type} (jvm : Host H) (env cls : Ptr) (w : World H)
    (hp : w.jvmpi_interface ≠ 0) :
    Java_net_sf_ifs_cpsolver_util_JProf_getCurrentThreadCpuTime jvm env cls w
      = ((jvm.GetCurrentThreadCpuTime w.host w.jvmpi_interface).1,
          { jvmpi_interface := w.jvmpi_interface
            host := (jvm.GetCurrentThreadCpuTime w.host w.jvmpi_interface).2
            calls := w.calls ++ [HostCall.GetCurrentThreadCpuTime w.jvmpi_interface] }) := by
  unfold Java_net_sf_ifs_cpsolver_util_JProf_getCurrentThreadCpuTime
  rw [if_neg hp]

theorem query_keeps_handle {H : Type} (jvm : Host H) (env cls : Ptr) (w : World H) :
    (Java_net_sf_ifs_cpsolver_util_JProf_getCurrentThreadCpuTime jvm env cls w).2.jvmpi_interface
      = w.jvmpi_interface := by
  by_cases h0 : w.jvmpi_interface = 0
  · rw [query_of_null jvm env cls w h0]
  · rw [query_of_nonnull jvm env cls w h0]

theorem runQueries_keeps_handle {H : Type} (jvm : Host H) (qs : List (Ptr × Ptr)) :
    ∀ w : World H, (runQueries jvm qs w).2.jvmpi_interface = w.jvmpi_interface := by
  induction qs with
  | nil => intro w; rfl
  | cons q rest ih =>
      intro w
      show (runQueries jvm rest _).2.jvmpi_interface = _
      rw [ih, query_keeps_handle]

theorem runQueries_of_null {H : Type} (jvm : Host H) (qs : List (Ptr × Ptr)) (w : World H)
    (h0 : w.jvmpi_interface = 0) :
    runQueries jvm qs w = (List.replicate qs.length 0, w) := by
  induction qs with
  | nil => rfl
  | cons q rest ih =>
      show ((Java_net_sf_ifs_cpsolver_util_JProf_getCurrentThreadCpuTime jvm q.1 q.2 w).1
              :: (runQueries jvm rest
                    (Java_net_sf_ifs_cpsolver_util_JProf_getCurrentThreadCpuTime jvm q.1 q.2 w).2).1,
            (runQueries jvm rest
              (Java_net_sf_ifs_cpsolver_util_JProf_getCurrentThreadCpuTime jvm q.1 q.2 w).2).2)
          = _
      rw [query_of_null jvm q.1 q.2 w h0, ih]
      rfl

theorem runQueries_of_nonnull {H : Type} (jvm : Host H) (qs : List (Ptr × Ptr)) :
    ∀ w : World H, w.jvmpi_interface ≠ 0 →
      runQueries jvm qs w
        = ((hostReports jvm w.jvmpi_interface qs.length w.host).1,
            { jvmpi_interface := w.jvmpi_interface
              host := (hostReports jvm w.jvmpi_interface qs.length w.host).2
              calls := w.calls ++ List.replicate qs.length
                (HostCall.GetCurrentThreadCpuTime w.jvmpi_interface) }) := by
  induction qs with
  | nil =>
      intro w _
      simp [runQueries, hostReports]
  | cons q rest ih =>
      intro w hp
      have hstep := query_of_nonnull jvm q.1 q.2 w hp
      have hrest := ih (Java_net_sf_ifs_cpsolver_util_JProf_getCurrentThreadCpuTime
        jvm q.1 q.2 w).2 (by rw [query_keeps_handle]; exact hp)
      simp only [runQueries, hostReports, List.length_cons]
      rw [hrest, hstep]
      simp [List.replicate_succ]

theorem run_append {H : Type} (jvm : Host H) (first later : List Invocation) :
    ∀ w : World H,
      run jvm (first ++ later) w
        = ((run jvm first w).1 ++ (run jvm later (run jvm first w).2).1,
            (run jvm later (run jvm first w).2).2) := by
  induction first with
  | nil => intro w; rfl
  | cons i rest ih =>
      intro w
      show ((invoke jvm i w).1 :: (run jvm (rest ++ later) (invoke jvm i w).2).1,
            (run jvm (rest ++ later) (invoke jvm i w).2).2) = _
      rw [ih]
      rfl

theorem run_queries_keep_handle {H : Type} (jvm : Host H) (later : List Invocation) :
    ∀ w : World H, (∀ i ∈ later, i.isQuery = true) →
      (run jvm later w).2.jvmpi_interface = w.jvmpi_interface := by
  induction later with
  | nil => intro w _; rfl
  | cons i rest ih =>
      intro w hall
      have hi : i.isQuery = true := hall i (List.mem_cons_self i rest)
      have hrest : ∀ j ∈ rest, j.isQuery = true :=
        fun j hj => hall j (List.mem_cons_of_mem i hj)
      simp only [run]
      rw [ih _ hrest]
      cases i with
      | onLoad options reserved => simp [Invocation.isQuery] at hi
      | query env cls => exact query_keeps_handle jvm env cls w

/-! ## The query -/

/-- C1: in every state in which `jvmpi_interface` is non-null, the query returns exactly
the value the host's thread-CPU-time accessor returns through that pointer, whatever
that value is (zero and negative values included); the accessor is invoked exactly
once (one more recorded host call, and the host is left in the state one accessor call
leaves it in), and the handle is not touched. -/
theorem query_present_returns_host_value {H : Type} (jvm : Host H) (env cls : Ptr)
    (w : World H) (hp : w.jvmpi_interface ≠ 0) :
    (Java_net_sf_ifs_cpsolver_util_JProf_getCurrentThreadCpuTime jvm env cls w).1
        = (jvm.GetCurrentThreadCpuTime w.host w.jvmpi_interface).1
    ∧ (Java_net_sf_ifs_cpsolver_util_JProf_getCurrentThreadCpuTime jvm env cls w).2.calls
        = w.calls ++ [HostCall.GetCurrentThreadCpuTime w.jvmpi_interface]
    ∧ (Java_net_sf_ifs_cpsolver_util_JProf_getCurrentThreadCpuTime jvm env cls w).2.host
        = (jvm.GetCurrentThreadCpuTime w.host w.jvmpi_interface).2
    ∧ (Java_net_sf_ifs_cpsolver_util_JProf_getCurrentThreadCpuTime jvm env cls w).2.jvmpi_interface
        = w.jvmpi_interface := by
  rw [query_of_nonnull jvm env cls w hp]
  exact ⟨rfl, rfl, rfl, rfl⟩

/-- Witness for C1: with the handle at `4096`, a host whose accessor reports `-5` and then
`0` gets exactly `-5` from the first query and `0` from the second, one accessor call
each. -/
theorem query_present_returns_host_value_witness :
    ((Java_net_sf_ifs_cpsolver_util_JProf_getCurrentThreadCpuTime oddClockHost 11 12
        { jvmpi_interface := 4096, host := 0, calls := [] }).1 = -5
      ∧ (Java_net_sf_ifs_cpsolver_util_JProf_getCurrentThreadCpuTime oddClockHost 11 12
          { jvmpi_interface := 4096, host := 0, calls := [] }).2.calls
          = [HostCall.GetCurrentThreadCpuTime 4096]
      ∧ (Java_net_sf_ifs_cpsolver_util_JProf_getCurrentThreadCpuTime oddClockHost 11 12
          { jvmpi_interface := 4096, host := 0, calls := [] }).2.host = 1
      ∧ (Java_net_sf_ifs_cpsolver_util_JProf_getCurrentThreadCpuTime oddClockHost 11 12
          { jvmpi_interface := 4096, host := 0, calls := [] }).2.jvmpi_interface = 4096)
    ∧ (Java_net_sf_ifs_cpsolver_util_JProf_getCurrentThreadCpuTime oddClockHost 11 12
        { jvmpi_interface := 4096, host := 1, calls := [] }).1 = 0 :=
  ⟨query_present_returns_host_value oddClockHost 11 12
      { jvmpi_interface := 4096, host := 0, calls := [] } (by decide),
    (query_present_returns_host_value oddClockHost 11 12
      { jvmpi_interface := 4096, host := 1, calls := [] } (by decide)).1⟩

/-- C2: in every state in which `jvmpi_interface` is null, and the state at process start
is one of them, every query returns exactly `0` and invokes no host operation (the
process, host state and recorded host calls included, is left as it was), for every
caller and for every number of queries in a row. -/
theorem query_absent_returns_zero {H : Type} (jvm : Host H) (w : World H)
    (h0 : w.jvmpi_interface = 0) (qs : List (Ptr × Ptr)) :
    (∀ env cls : Ptr,
        Java_net_sf_ifs_cpsolver_util_JProf_getCurrentThreadCpuTime jvm env cls w = (0, w))
    ∧ (runQueries jvm qs w).1 = List.replicate qs.length 0
    ∧ (runQueries jvm qs w).2 = w
    ∧ (∀ h : H, (World.init h).jvmpi_interface = 0) := by
  refine ⟨fun env cls => query_of_null jvm env cls w h0, ?_, ?_, fun _ => rfl⟩
  · rw [runQueries_of_null jvm qs w h0]
  · rw [runQueries_of_null jvm qs w h0]

/-- Witness for C2: `JVM_OnLoad` was never called; three queries from three callers
against a host that would report `1000` return `0` each and leave the process as it
started. -/
theorem query_absent_returns_zero_witness :
    (∀ env cls : Ptr,
        Java_net_sf_ifs_cpsolver_util_JProf_getCurrentThreadCpuTime grantingHost env cls
          (World.init 0) = (0, World.init 0))
    ∧ (runQueries grantingHost [(1, 2), (3, 4), (5, 6)] (World.init 0)).1 = [0, 0, 0]
    ∧ (runQueries grantingHost [(1, 2), (3, 4), (5, 6)] (World.init 0)).2 = World.init 0
    ∧ (∀ h : Nat, (World.init h).jvmpi_interface = 0) :=
  query_absent_returns_zero grantingHost (World.init 0) rfl [(1, 2), (3, 4), (5, 6)]

/-! ## The load entry point -/

/-- Counterexample to C3: the host returns the error status `-1` after storing the
non-null address `4096` through the output pointer.  Starting from the null handle of
process start, `JVM_OnLoad` returns `JNI_ERR` and the handle is `4096`, not null. -/
theorem failed_load_handle_counterexample :
    (World.init (0 : Nat)).jvmpi_interface = 0
    ∧ (storingRefusingHost.GetEnv 0 0 JVMPI_VERSION_1).1.status < 0
    ∧ (JVM_OnLoad storingRefusingHost none 0 (World.init 0)).1 = JNI_ERR
    ∧ (JVM_OnLoad storingRefusingHost none 0 (World.init 0)).2.jvmpi_interface = 4096
    ∧ (4096 : Ptr) > 0 := by
  decide

/-- C3, amended: for every failing host response (negative status), starting from a null
handle, the handle is null when `JVM_OnLoad` returns if and only if the host stored
nothing or stored null through the output pointer; a pointer the host did store is what
the handle holds afterwards. -/
theorem failed_load_handle {H : Type} (jvm : Host H) (options : Option String)
    (reserved : Ptr) (w : World H) (h0 : w.jvmpi_interface = 0)
    (hfail : (jvm.GetEnv w.host w.jvmpi_interface JVMPI_VERSION_1).1.status < 0) :
    (JVM_OnLoad jvm options reserved w).1 = JNI_ERR
    ∧ ((JVM_OnLoad jvm options reserved w).2.jvmpi_interface = 0
        ↔ ((jvm.GetEnv w.host w.jvmpi_interface JVMPI_VERSION_1).1.stored = none
            ∨ (jvm.GetEnv w.host w.jvmpi_interface JVMPI_VERSION_1).1.stored = some 0))
    ∧ (∀ p : Ptr, (jvm.GetEnv w.host w.jvmpi_interface JVMPI_VERSION_1).1.stored = some p →
        (JVM_OnLoad jvm options reserved w).2.jvmpi_interface = p) := by
  rw [JVM_OnLoad_fst, JVM_OnLoad_snd, if_pos hfail]
  refine ⟨rfl, ?_, ?_⟩
  · show slotAfter _ _ = 0 ↔ _
    unfold slotAfter
    cases hs : (jvm.GetEnv w.host w.jvmpi_interface JVMPI_VERSION_1).1.stored with
    | none => simp [h0]
    | some p => simp
  · intro p hp
    show slotAfter _ _ = p
    unfold slotAfter
    rw [hp]

/-- Witness for C3, amended: a host that refuses with `-3` and stores null, from process
start: the load fails and the handle is null. -/
theorem failed_load_handle_witness :
    (JVM_OnLoad refusingHost (some "x") 5 (World.init 0)).1 = JNI_ERR
    ∧ ((JVM_OnLoad refusingHost (some "x") 5 (World.init 0)).2.jvmpi_interface = 0
        ↔ ((refusingHost.GetEnv (World.init 0).host (World.init (0 : Nat)).jvmpi_interface
              JVMPI_VERSION_1).1.stored = none
            ∨ (refusingHost.GetEnv (World.init 0).host (World.init (0 : Nat)).jvmpi_interface
              JVMPI_VERSION_1).1.stored = some 0))
    ∧ (∀ p : Ptr,
        (refusingHost.GetEnv (World.init 0).host (World.init (0 : Nat)).jvmpi_interface
          JVMPI_VERSION_1).1.stored = some p →
        (JVM_OnLoad refusingHost (some "x") 5 (World.init 0)).2.jvmpi_interface = p) :=
  failed_load_handle refusingHost (some "x") 5 (World.init 0) rfl (by decide)

/-- C4: `JVM_OnLoad` returns one of two distinct status codes, `JNI_ERR` or `JNI_OK`; it
returns `JNI_ERR` exactly when the host's `GetEnv` request fails (returns a negative
status) and `JNI_OK` in every other case; and the code is the same whatever pointer the
host stores, or does not store, through the output pointer. -/
theorem JVM_OnLoad_status {H : Type} (jvm : Host H) (options : Option String)
    (reserved : Ptr) (w : World H) :
    ((JVM_OnLoad jvm options reserved w).1 = JNI_ERR
        ∨ (JVM_OnLoad jvm options reserved w).1 = JNI_OK)
    ∧ JNI_ERR ≠ JNI_OK
    ∧ ((JVM_OnLoad jvm options reserved w).1 = JNI_ERR
        ↔ (jvm.GetEnv w.host w.jvmpi_interface JVMPI_VERSION_1).1.status < 0)
    ∧ ((JVM_OnLoad jvm options reserved w).1 = JNI_OK
        ↔ ¬ (jvm.GetEnv w.host w.jvmpi_interface JVMPI_VERSION_1).1.status < 0)
    ∧ (∀ q : Option Ptr,
        (JVM_OnLoad (jvm.storing q) options reserved w).1
          = (JVM_OnLoad jvm options reserved w).1) := by
  have hne : JNI_ERR ≠ JNI_OK := by decide
  refine ⟨?_, hne, ?_, ?_, ?_⟩
  · rw [JVM_OnLoad_fst]
    split
    · exact Or.inl rfl
    · exact Or.inr rfl
  · rw [JVM_OnLoad_fst]
    constructor
    · intro h
      by_contra hn
      rw [if_neg hn] at h
      exact hne h.symm
    · intro h
      rw [if_pos h]
  · rw [JVM_OnLoad_fst]
    constructor
    · intro h hn
      rw [if_pos hn] at h
      exact hne h
    · intro h
      rw [if_neg h]
  · intro q
    rw [JVM_OnLoad_fst, JVM_OnLoad_fst]
    rfl

/-- C5: whenever `JVM_OnLoad` returns `JNI_OK`, the handle afterwards is exactly the
content the host left in the output slot, so it is the interface reference `p` the host
stored; the host was asked exactly once, one `GetEnv` at `JVMPI_VERSION_1` and nothing
else, and neither the options string nor the reserved pointer changes anything. -/
theorem successful_load_stores_reference {H : Type} (jvm : Host H)
    (options : Option String) (reserved : Ptr) (w : World H)
    (hok : (JVM_OnLoad jvm options reserved w).1 = JNI_OK) :
    (∀ p : Ptr, (jvm.GetEnv w.host w.jvmpi_interface JVMPI_VERSION_1).1.stored = some p →
        (JVM_OnLoad jvm options reserved w).2.jvmpi_interface = p)
    ∧ (JVM_OnLoad jvm options reserved w).2.jvmpi_interface
        = slotAfter w.jvmpi_interface (jvm.GetEnv w.host w.jvmpi_interface JVMPI_VERSION_1).1
    ∧ (JVM_OnLoad jvm options reserved w).2.calls
        = w.calls ++ [HostCall.GetEnv JVMPI_VERSION_1]
    ∧ (JVM_OnLoad jvm options reserved w).2.host
        = (jvm.GetEnv w.host w.jvmpi_interface JVMPI_VERSION_1).2
    ∧ (∀ (options2 : Option String) (reserved2 : Ptr),
        JVM_OnLoad jvm options2 reserved2 w = JVM_OnLoad jvm options reserved w) := by
  refine ⟨?_, ?_, ?_, ?_, ?_⟩
  · intro p hp
    rw [JVM_OnLoad_snd]
    show slotAfter _ _ = p
    unfold slotAfter
    rw [hp]
  · rw [JVM_OnLoad_snd]
  · rw [JVM_OnLoad_snd]
  · rw [JVM_OnLoad_snd]
  · intro options2 reserved2
    rfl

/-- Witness for C5: the granting host, asked with options `"a=b"` at process start, stores
`4096`; the load succeeds, the handle is `4096`, and the only host call is one `GetEnv`
at `JVMPI_VERSION_1`. -/
theorem successful_load_stores_reference_witness :
    (JVM_OnLoad grantingHost (some "a=b") 9 (World.init 0)).1 = JNI_OK
    ∧ (JVM_OnLoad grantingHost (some "a=b") 9 (World.init 0)).2.jvmpi_interface = 4096
    ∧ (JVM_OnLoad grantingHost (some "a=b") 9 (World.init 0)).2.calls
        = [HostCall.GetEnv JVMPI_VERSION_1] :=
  ⟨by decide,
    (successful_load_stores_reference grantingHost (some "a=b") 9 (World.init 0)
      (by decide)).1 4096 rfl,
    (successful_load_stores_reference grantingHost (some "a=b") 9 (World.init 0)
      (by decide)).2.2.1⟩

/-! ## Load followed by queries -/

/-- Counterexample to C6: the host returns the success status `0` for the request and
stores null.  From process start `JVM_OnLoad` returns `JNI_OK`, yet the query afterwards
returns the fallback `0` without invoking the host: the handle is null, the host state
still counts no accessor call (its accessor never reports less than `1000`), and the only
host call on record is the `GetEnv`. -/
theorem success_then_query_counterexample :
    (JVM_OnLoad nullGrantingHost none 0 (World.init 0)).1 = JNI_OK
    ∧ (Java_net_sf_ifs_cpsolver_util_JProf_getCurrentThreadCpuTime nullGrantingHost 1 2
        (JVM_OnLoad nullGrantingHost none 0 (World.init 0)).2).1 = 0
    ∧ (JVM_OnLoad nullGrantingHost none 0 (World.init 0)).2.jvmpi_interface = 0
    ∧ (Java_net_sf_ifs_cpsolver_util_JProf_getCurrentThreadCpuTime nullGrantingHost 1 2
        (JVM_OnLoad nullGrantingHost none 0 (World.init 0)).2).2.host = 0
    ∧ (Java_net_sf_ifs_cpsolver_util_JProf_getCurrentThreadCpuTime nullGrantingHost 1 2
        (JVM_OnLoad nullGrantingHost none 0 (World.init 0)).2).2.calls
        = [HostCall.GetEnv JVMPI_VERSION_1] := by
  decide

/-- C6, amended: for every run in which `JVM_OnLoad` returned `JNI_OK` and left a non-null
handle, and for every sequence of queries issued afterwards, the values the queries return
are exactly the values the host's accessor reports when invoked that many times in a
row through the handle; every query made exactly one accessor call and the handle stayed
what the load left. -/
theorem queries_after_successful_load {H : Type} (jvm : Host H)
    (options : Option String) (reserved : Ptr) (w : World H) (qs : List (Ptr × Ptr))
    (hok : (JVM_OnLoad jvm options reserved w).1 = JNI_OK)
    (hp : (JVM_OnLoad jvm options reserved w).2.jvmpi_interface ≠ 0) :
    (runQueries jvm qs (JVM_OnLoad jvm options reserved w).2).1
        = (hostReports jvm (JVM_OnLoad jvm options reserved w).2.jvmpi_interface qs.length
            (JVM_OnLoad jvm options reserved w).2.host).1
    ∧ (runQueries jvm qs (JVM_OnLoad jvm options reserved w).2).2.host
        = (hostReports jvm (JVM_OnLoad jvm options reserved w).2.jvmpi_interface qs.length
            (JVM_OnLoad jvm options reserved w).2.host).2
    ∧ (runQueries jvm qs (JVM_OnLoad jvm options reserved w).2).2.calls
        = (JVM_OnLoad jvm options reserved w).2.calls ++ List.replicate qs.length
            (HostCall.GetCurrentThreadCpuTime
              (JVM_OnLoad jvm options reserved w).2.jvmpi_interface)
    ∧ (runQueries jvm qs (JVM_OnLoad jvm options reserved w).2).2.jvmpi_interface
        = (JVM_OnLoad jvm options reserved w).2.jvmpi_interface := by
  rw [runQueries_of_nonnull jvm qs _ hp]
  exact ⟨rfl, rfl, rfl, rfl⟩

/-- Witness for C6, amended: the granting host stores `4096` and returns `0`; three queries
afterwards return the three values its accessor reports, `1000`, `1007`, `1014`. -/
theorem queries_after_successful_load_witness :
    (runQueries grantingHost [(1, 2), (3, 4), (1, 2)]
        (JVM_OnLoad grantingHost none 0 (World.init 0)).2).1 = [1000, 1007, 1014]
    ∧ (hostReports grantingHost 4096 3 0).1 = [1000, 1007, 1014]
    ∧ (runQueries grantingHost [(1, 2), (3, 4), (1, 2)]
        (JVM_OnLoad grantingHost none 0 (World.init 0)).2).2.calls
        = [HostCall.GetEnv JVMPI_VERSION_1, HostCall.GetCurrentThreadCpuTime 4096,
            HostCall.GetCurrentThreadCpuTime 4096, HostCall.GetCurrentThreadCpuTime 4096] :=
  ⟨(queries_after_successful_load grantingHost none 0 (World.init 0)
      [(1, 2), (3, 4), (1, 2)] (by decide) (by decide)).1.trans (by decide),
    by decide,
    (queries_after_successful_load grantingHost none 0 (World.init 0)
      [(1, 2), (3, 4), (1, 2)] (by decide) (by decide)).2.2.1.trans (by decide)⟩

/-- Counterexample to C7: the host returns the error status `-1` after storing the
non-null address `4096`.  From process start `JVM_OnLoad` returns `JNI_ERR`, and the
query afterwards calls the accessor through `4096` and returns its `1000`, not `0`. -/
theorem failure_then_query_counterexample :
    (JVM_OnLoad storingRefusingHost none 0 (World.init 0)).1 = JNI_ERR
    ∧ (Java_net_sf_ifs_cpsolver_util_JProf_getCurrentThreadCpuTime storingRefusingHost 1 2
        (JVM_OnLoad storingRefusingHost none 0 (World.init 0)).2).1 = 1000
    ∧ (Java_net_sf_ifs_cpsolver_util_JProf_getCurrentThreadCpuTime storingRefusingHost 1 2
        (JVM_OnLoad storingRefusingHost none 0 (World.init 0)).2).2.calls
        = [HostCall.GetEnv JVMPI_VERSION_1, HostCall.GetCurrentThreadCpuTime 4096] := by
  decide

/-- C7, amended: for every run in which `JVM_OnLoad`, called with a null handle, returned
`JNI_ERR` and the host stored nothing or null through the output pointer, every query
issued afterwards returns exactly `0`, for every caller and every number of queries, and
invokes no host operation. -/
theorem queries_after_failed_load {H : Type} (jvm : Host H)
    (options : Option String) (reserved : Ptr) (w : World H) (qs : List (Ptr × Ptr))
    (h0 : w.jvmpi_interface = 0)
    (hfail : (JVM_OnLoad jvm options reserved w).1 = JNI_ERR)
    (hs : (jvm.GetEnv w.host w.jvmpi_interface JVMPI_VERSION_1).1.stored = none
        ∨ (jvm.GetEnv w.host w.jvmpi_interface JVMPI_VERSION_1).1.stored = some 0) :
    (runQueries jvm qs (JVM_OnLoad jvm options reserved w).2).1
        = List.replicate qs.length 0
    ∧ (runQueries jvm qs (JVM_OnLoad jvm options reserved w).2).2
        = (JVM_OnLoad jvm options reserved w).2
    ∧ (∀ env cls : Ptr,
        (Java_net_sf_ifs_cpsolver_util_JProf_getCurrentThreadCpuTime jvm env cls
          (JVM_OnLoad jvm options reserved w).2).1 = 0) := by
  have hnull : (JVM_OnLoad jvm options reserved w).2.jvmpi_interface = 0 := by
    rw [JVM_OnLoad_snd]
    show slotAfter _ _ = 0
    unfold slotAfter
    rcases hs with hs | hs
    · rw [hs]; exact h0
    · rw [hs]
  refine ⟨?_, ?_, ?_⟩
  · rw [runQueries_of_null jvm qs _ hnull]
  · rw [runQueries_of_null jvm qs _ hnull]
  · intro env cls
    rw [query_of_null jvm env cls _ hnull]

/-- Witness for C7, amended: a host that refuses with `-1` and leaves the slot alone, from
process start; three queries afterwards return `0` each and the only host call ever made
is the `GetEnv`. -/
theorem queries_after_failed_load_witness :
    (runQueries silentRefusingHost [(1, 2), (3, 4), (1, 2)]
        (JVM_OnLoad silentRefusingHost none 0 (World.init 0)).2).1 = [0, 0, 0]
    ∧ (runQueries silentRefusingHost [(1, 2), (3, 4), (1, 2)]
        (JVM_OnLoad silentRefusingHost none 0 (World.init 0)).2).2
        = (JVM_OnLoad silentRefusingHost none 0 (World.init 0)).2
    ∧ (∀ env cls : Ptr,
        (Java_net_sf_ifs_cpsolver_util_JProf_getCurrentThreadCpuTime silentRefusingHost env cls
          (JVM_OnLoad silentRefusingHost none 0 (World.init 0)).2).1 = 0) :=
  queries_after_failed_load silentRefusingHost none 0 (World.init 0)
    [(1, 2), (3, 4), (1, 2)] rfl (by decide) (Or.inl rfl)

/-! ## The handle over the life of the process -/

/-- Counterexample to C8: a host that answers each `GetEnv` differently.  After the first
`JVM_OnLoad` has returned the handle is `4096`; a query leaves it; a second `JVM_OnLoad`
reassigns it to `4104`; a third clears it to null. -/
theorem handle_write_once_counterexample :
    (run fickleHost [Invocation.onLoad none 0] (World.init 0)).2.jvmpi_interface = 4096
    ∧ (run fickleHost [Invocation.onLoad none 0, Invocation.query 1 2]
        (World.init 0)).2.jvmpi_interface = 4096
    ∧ (run fickleHost [Invocation.onLoad none 0, Invocation.query 1 2,
        Invocation.onLoad none 0] (World.init 0)).2.jvmpi_interface = 4104
    ∧ (run fickleHost [Invocation.onLoad none 0, Invocation.query 1 2,
        Invocation.onLoad none 0, Invocation.onLoad none 0]
        (World.init 0)).2.jvmpi_interface = 0 := by
  decide

/-- C8, amended: for every sequence of entry-point invocations, once it has been performed
(in particular once a `JVM_OnLoad` has returned), the handle is not reassigned or cleared
by any number of later query invocations: present stays present and absent stays absent.
A later `JVM_OnLoad` leaves in the handle the content of the output slot after the
host's `GetEnv`. -/
theorem handle_stable_under_queries {H : Type} (jvm : Host H)
    (first later : List Invocation) (w : World H)
    (hq : ∀ i ∈ later, i.isQuery = true) :
    (run jvm (first ++ later) w).2.jvmpi_interface = (run jvm first w).2.jvmpi_interface
    ∧ ((run jvm (first ++ later) w).2.jvmpi_interface = 0
        ↔ (run jvm first w).2.jvmpi_interface = 0)
    ∧ (∀ (options : Option String) (reserved : Ptr),
        (run jvm (first ++ later ++ [Invocation.onLoad options reserved]) w).2.jvmpi_interface
          = slotAfter (run jvm first w).2.jvmpi_interface
              (jvm.GetEnv (run jvm (first ++ later) w).2.host
                (run jvm first w).2.jvmpi_interface JVMPI_VERSION_1).1) := by
  have hkeep : (run jvm (first ++ later) w).2.jvmpi_interface
      = (run jvm first w).2.jvmpi_interface := by
    rw [run_append]
    exact run_queries_keep_handle jvm later _ hq
  refine ⟨hkeep, by rw [hkeep], ?_⟩
  intro options reserved
  rw [run_append jvm (first ++ later) [Invocation.onLoad options reserved] w]
  show (JVM_OnLoad jvm options reserved (run jvm (first ++ later) w).2).2.jvmpi_interface = _
  rw [JVM_OnLoad_snd, hkeep]

/-- Witness for C8, amended: after a successful load from the granting host, three queries
leave the handle at `4096`. -/
theorem handle_stable_under_queries_witness :
    (run grantingHost ([Invocation.onLoad none 0]
        ++ [Invocation.query 1 2, Invocation.query 3 4, Invocation.query 1 2])
        (World.init 0)).2.jvmpi_interface
      = (run grantingHost [Invocation.onLoad none 0] (World.init 0)).2.jvmpi_interface
    ∧ (run grantingHost [Invocation.onLoad none 0] (World.init 0)).2.jvmpi_interface = 4096 :=
  ⟨(handle_stable_under_queries grantingHost [Invocation.onLoad none 0]
      [Invocation.query 1 2, Invocation.query 3 4, Invocation.query 1 2] (World.init 0)
      (by decide)).1,
    by decide⟩

/-- C9: the query does not change the agent's state.  For every handle value and every
host, the handle after a query, and after any number of queries, is the handle before;
and two queries made with the same handle for which the host's accessor reports the same
value return the same value. -/
theorem query_has_no_side_effect {H1 H2 : Type} (jvm1 : Host H1) (jvm2 : Host H2)
    (env1 cls1 env2 cls2 : Ptr) (w1 : World H1) (w2 : World H2) (qs : List (Ptr × Ptr))
    (hsame : w2.jvmpi_interface = w1.jvmpi_interface)
    (hres : (jvm2.GetCurrentThreadCpuTime w2.host w2.jvmpi_interface).1
        = (jvm1.GetCurrentThreadCpuTime w1.host w1.jvmpi_interface).1) :
    (Java_net_sf_ifs_cpsolver_util_JProf_getCurrentThreadCpuTime jvm1 env1 cls1 w1).2.jvmpi_interface
        = w1.jvmpi_interface
    ∧ (runQueries jvm1 qs w1).2.jvmpi_interface = w1.jvmpi_interface
    ∧ (Java_net_sf_ifs_cpsolver_util_JProf_getCurrentThreadCpuTime jvm2 env2 cls2 w2).1
        = (Java_net_sf_ifs_cpsolver_util_JProf_getCurrentThreadCpuTime jvm1 env1 cls1 w1).1 := by
  refine ⟨query_keeps_handle jvm1 env1 cls1 w1, runQueries_keeps_handle jvm1 qs w1, ?_⟩
  by_cases h0 : w1.jvmpi_interface = 0
  · rw [query_of_null jvm1 env1 cls1 w1 h0, query_of_null jvm2 env2 cls2 w2 (hsame.trans h0)]
  · rw [query_of_nonnull jvm1 env1 cls1 w1 h0,
      query_of_nonnull jvm2 env2 cls2 w2 (by rw [hsame]; exact h0)]
    exact hres

/-- Witness for C9: two processes with the handle at `4096` and hosts that both report
`1000`; the queries return the same value and leave the handle at `4096`. -/
theorem query_has_no_side_effect_witness :
    (Java_net_sf_ifs_cpsolver_util_JProf_getCurrentThreadCpuTime grantingHost 1 2
        { jvmpi_interface := 4096, host := 0, calls := [] }).2.jvmpi_interface = 4096
    ∧ (runQueries grantingHost [(1, 2), (3, 4)]
        { jvmpi_interface := 4096, host := 0, calls := [] }).2.jvmpi_interface = 4096
    ∧ (Java_net_sf_ifs_cpsolver_util_JProf_getCurrentThreadCpuTime storingRefusingHost 3 4
        { jvmpi_interface := 4096, host := 0, calls := [HostCall.GetEnv JVMPI_VERSION_1] }).1
        = (Java_net_sf_ifs_cpsolver_util_JProf_getCurrentThreadCpuTime grantingHost 1 2
            { jvmpi_interface := 4096, host := 0, calls := [] }).1 :=
  query_has_no_side_effect grantingHost storingRefusingHost 1 2 3 4
    { jvmpi_interface := 4096, host := 0, calls := [] }
    { jvmpi_interface := 4096, host := 0, calls := [HostCall.GetEnv JVMPI_VERSION_1] }
    [(1, 2), (3, 4)] rfl (by decide)

/-- C10: the load status is deterministic.  For any two invocations of `JVM_OnLoad`, on any
hosts and in any process states, in which the host returns the same status for the
`GetEnv` request at `JVMPI_VERSION_1`, `JVM_OnLoad` returns the same status, whatever the
two options strings, the two reserved pointers and the two handle values before the
calls, and whatever the host stored. -/
theorem JVM_OnLoad_deterministic {H1 H2 : Type} (jvm1 : Host H1) (jvm2 : Host H2)
    (options1 options2 : Option String) (reserved1 reserved2 : Ptr)
    (w1 : World H1) (w2 : World H2)
    (hsame : (jvm1.GetEnv w1.host w1.jvmpi_interface JVMPI_VERSION_1).1.status
        = (jvm2.GetEnv w2.host w2.jvmpi_interface JVMPI_VERSION_1).1.status) :
    (JVM_OnLoad jvm1 options1 reserved1 w1).1 = (JVM_OnLoad jvm2 options2 reserved2 w2).1 := by
  rw [JVM_OnLoad_fst, JVM_OnLoad_fst, hsame]

/-- Witness for C10: two hosts that both return `-1`, one storing `4096` and one storing
nothing, asked with different options, reserved pointers and handles: same status. -/
theorem JVM_OnLoad_deterministic_witness :
    (JVM_OnLoad storingRefusingHost (some "verbose") 1 (World.init 0)).1
        = (JVM_OnLoad silentRefusingHost none 2
            { jvmpi_interface := 77, host := 5, calls := [] }).1
    ∧ (JVM_OnLoad storingRefusingHost (some "verbose") 1 (World.init 0)).1 = JNI_ERR :=
  ⟨JVM_OnLoad_deterministic storingRefusingHost silentRefusingHost (some "verbose") none 1 2
      (World.init 0) { jvmpi_interface := 77, host := 5, calls := [] } (by decide),
    by decide⟩

end JProf
